import Mathlib

/-!
# Budget and investment calculator (`script.js`)

Two shallow embeddings of the numeric routines of `script.js`,
`calculateBudget` / `updateBudgetBar` and `calculateInvestment` /
`updateInvestmentBar`.

* The first computes in exact rational arithmetic: a JavaScript number is a
  rational, the loop counter a natural number, and the `for` loop over
  `m = 1 .. totalMonths` a left fold over `List.range' 1 totalMonths`. It
  carries the statements that are made "in exact rational arithmetic".
* The second (names ending in `64`) computes as the program does, in IEEE 754
  binary64 with rounding to nearest, overflow to the infinities, `NaN`, and a
  loop counter that is itself a double. It carries the statements about the
  program on doubles and the inputs at which the exact statements fail.

In both, reading the DOM becomes reading a record of form fields (the decimal
typed into each numeric field, `none` when `parseFloat` gives `NaN`), and the
writes to the DOM become the fields of the returned record (the numbers handed
to `formatCurrency`, the bar widths as percentages, the label).
-/

namespace BudgetInvest

/-! ## Helpers shared by both calculators -/

/-- The idiom `parseFloat(s) || d`: `NaN` and `0` are both falsy, so both are
replaced by the default `d`. -/
def orDefault (v : Option ℚ) (d : ℚ) : ℚ :=
  match v with
  | none => d
  | some x => if x = 0 then d else x

/-- The idiom `x || d` on a number that is never `NaN`. -/
def numOr (x d : ℚ) : ℚ := if x = 0 then d else x

/-- `Math.round`: nearest integer, ties towards plus infinity. -/
def mathRound (x : ℚ) : ℤ := Int.floor (x + 1 / 2)

/-- `Number.prototype.toFixed(0)`: nearest integer as a decimal string, ties
away from zero, the sign taken from the argument. -/
def toFixed0 (x : ℚ) : String :=
  if x < 0 then "-" ++ toString (Int.floor (-x + 1 / 2))
  else toString (Int.floor (x + 1 / 2))

/-! ## Budget calculator -/

/-- The form fields read by `calculateBudget`, each already through
`parseFloat`; `billRows` holds the amount field of every `.bill-row`, in
document order. -/
structure BudgetForm where
  income : Option ℚ
  targetSavings : Option ℚ
  billRows : List (Option ℚ)

/-- What `updateBudgetBar` writes: the three bar widths (in percent) and the
text of `#allocation-percentages`. -/
structure BudgetBar where
  widthBills : ℚ
  widthSavings : ℚ
  widthLeftover : ℚ
  label : String
  deriving DecidableEq

/-- The local `totalForChart` of `updateBudgetBar` (line 145). -/
def totalForChart (bills savings leftover : ℚ) : ℚ :=
  let safeLeftover := max leftover 0
  numOr (max bills 0 + max savings 0 + safeLeftover) 1

/-- The local `billsPct` of `updateBudgetBar`. -/
def billsPct (bills savings leftover : ℚ) : ℚ :=
  (max bills 0 / totalForChart bills savings leftover) * 100

/-- The local `savingsPct` of `updateBudgetBar`. -/
def savingsPct (bills savings leftover : ℚ) : ℚ :=
  (max savings 0 / totalForChart bills savings leftover) * 100

/-- The local `leftoverPct` of `updateBudgetBar`. -/
def leftoverPct (bills savings leftover : ℚ) : ℚ :=
  let safeLeftover := max leftover 0
  (safeLeftover / totalForChart bills savings leftover) * 100

/-- The function `updateBudgetBar(income, bills, savings, leftover)`. -/
def updateBudgetBar (income bills savings leftover : ℚ) : BudgetBar :=
  if income ≤ 0 then
    { widthBills := 0, widthSavings := 0, widthLeftover := 0, label := "" }
  else
    { widthBills := billsPct bills savings leftover
      widthSavings := savingsPct bills savings leftover
      widthLeftover := leftoverPct bills savings leftover
      label := toFixed0 (billsPct bills savings leftover) ++ "% Bills | "
        ++ toFixed0 (savingsPct bills savings leftover) ++ "% Savings | "
        ++ toFixed0 (leftoverPct bills savings leftover) ++ "% Leftover" }

/-- The accumulation `totalBills += parseFloat(amountInput.value) || 0` over
the bill rows. -/
def sumBills (rows : List (Option ℚ)) : ℚ :=
  rows.foldl (fun totalBills amount => totalBills + orDefault amount 0) 0

/-- What `calculateBudget` produces: the five numbers it formats into the
summary and the state of the allocation bar. -/
structure BudgetResult where
  income : ℚ
  totalBills : ℚ
  targetSavings : ℚ
  leftoverAfterBills : ℚ
  leftoverAfterSavings : ℚ
  bar : BudgetBar

/-- The function `calculateBudget`. -/
def calculateBudget (form : BudgetForm) : BudgetResult :=
  let income := orDefault form.income 0
  let targetSavings := orDefault form.targetSavings 0
  let totalBills := sumBills form.billRows
  let leftoverAfterBills := income - totalBills
  let leftoverAfterSavings := leftoverAfterBills - targetSavings
  { income := income
    totalBills := totalBills
    targetSavings := targetSavings
    leftoverAfterBills := leftoverAfterBills
    leftoverAfterSavings := leftoverAfterSavings
    bar := updateBudgetBar income totalBills targetSavings leftoverAfterBills }

/-! ## Investment calculator -/

/-- The form fields read by `calculateInvestment`. The numeric fields are
already through `parseFloat`; `contributionFrequency` is the value of the
select box and `timingChecked` the value of the checked radio button, if any. -/
structure InvestmentForm where
  initialAmount : Option ℚ
  monthlyContribution : Option ℚ
  annualRate : Option ℚ
  years : Option ℚ
  compoundingFrequency : Option ℚ
  contributionFrequency : String
  timingChecked : Option String

/-- The local `timing` of `calculateInvestment` (lines 174 to 176): the value
of the checked radio button, or `"end"` when no button is checked or its value
is the empty string. -/
def timingOf (timingChecked : Option String) : String :=
  match timingChecked with
  | none => "end"
  | some v => if v = "" then "end" else v

/-- The two variables updated by the monthly loop. -/
@[ext]
structure LoopState where
  balance : ℚ
  totalContributions : ℚ
  deriving DecidableEq

/-- One iteration of the loop body of `calculateInvestment`, for month `m`. -/
def monthStep (contribFrequency timing : String) (monthly monthlyRate : ℚ)
    (s : LoopState) (m : ℕ) : LoopState :=
  let isContributionMonth : Bool :=
    if contribFrequency = "month" then true else m % 12 == 0
  let add : ℚ := if contribFrequency = "month" then monthly else monthly * 12
  let s1 : LoopState :=
    if isContributionMonth && timing == "begin" then
      { balance := s.balance + add, totalContributions := s.totalContributions + add }
    else s
  let s2 : LoopState :=
    if monthlyRate > 0 then { s1 with balance := s1.balance * (1 + monthlyRate) }
    else s1
  if isContributionMonth && timing == "end" then
    { balance := s2.balance + add, totalContributions := s2.totalContributions + add }
  else s2

/-- The loop `for (let m = 1; m <= totalMonths; m++)` started from
`balance = totalContributions = initial`. -/
def simulate (contribFrequency timing : String) (monthly monthlyRate initial : ℚ)
    (totalMonths : ℕ) : LoopState :=
  (List.range' 1 totalMonths).foldl
    (monthStep contribFrequency timing monthly monthlyRate)
    { balance := initial, totalContributions := initial }

/-- What `updateInvestmentBar` writes: the two bar widths, in percent. -/
structure InvestmentBar where
  widthContributions : ℚ
  widthGrowth : ℚ
  deriving DecidableEq

/-- The local `total` of `updateInvestmentBar` (line 230). -/
def investmentBarTotal (contributions growth : ℚ) : ℚ :=
  let contribSafe := max contributions 0
  let growthSafe := max growth 0
  numOr (contribSafe + growthSafe) 1

/-- The local `contribPct` of `updateInvestmentBar`. -/
def contribPct (contributions growth : ℚ) : ℚ :=
  let contribSafe := max contributions 0
  (contribSafe / investmentBarTotal contributions growth) * 100

/-- The local `growthPct` of `updateInvestmentBar`. -/
def growthPct (contributions growth : ℚ) : ℚ :=
  let growthSafe := max growth 0
  (growthSafe / investmentBarTotal contributions growth) * 100

/-- The function `updateInvestmentBar(contributions, growth)`. -/
def updateInvestmentBar (contributions growth : ℚ) : InvestmentBar :=
  { widthContributions := contribPct contributions growth
    widthGrowth := growthPct contributions growth }

/-- What `calculateInvestment` produces: the three numbers it formats into the
summary and the state of the contributions-versus-growth bar. -/
structure InvestmentResult where
  totalContributions : ℚ
  finalBalance : ℚ
  growth : ℚ
  bar : InvestmentBar

/-- The local `totalMonths` of `calculateInvestment` (lines 171, 178, 179), as
the number of iterations of the loop. -/
def totalMonthsOf (yearsField : Option ℚ) : ℕ :=
  let years := orDefault yearsField 0
  let totalYears := max years 0
  (mathRound (totalYears * 12)).toNat

/-- The local `monthlyRate` of `calculateInvestment` (lines 170, 180, 183). -/
def monthlyRateOf (annualRateField : Option ℚ) : ℚ :=
  let annualRate := orDefault annualRateField 0 / 100
  let ratePerYear := max annualRate 0
  ratePerYear / 12

/-- The function `calculateInvestment`. -/
def calculateInvestment (form : InvestmentForm) : InvestmentResult :=
  let initial := orDefault form.initialAmount 0
  let monthly := orDefault form.monthlyContribution 0
  let contribFrequency := form.contributionFrequency
  let timing := timingOf form.timingChecked
  let totalMonths := totalMonthsOf form.years
  let monthlyRate := monthlyRateOf form.annualRate
  let final := simulate contribFrequency timing monthly monthlyRate initial totalMonths
  let finalBalance := final.balance
  let growth := finalBalance - final.totalContributions
  { totalContributions := final.totalContributions
    finalBalance := finalBalance
    growth := growth
    bar := updateInvestmentBar final.totalContributions growth }

/-- The form of the worked scenario: 1000 initial, 100 a month, 12 percent a
year, one year, monthly cadence, contributions at the end of the month. -/
def scenarioForm : InvestmentForm :=
  { initialAmount := some 1000
    monthlyContribution := some 100
    annualRate := some 12
    years := some 1
    compoundingFrequency := some 12
    contributionFrequency := "month"
    timingChecked := some "end" }

/-- A form inside the data model with a negative monthly contribution:
nothing initial, minus 100 a month, 12 percent, one year, monthly cadence,
contributions at the end of the month. -/
def withdrawalForm : InvestmentForm :=
  { initialAmount := some 0
    monthlyContribution := some (-100)
    annualRate := some 12
    years := some 1
    compoundingFrequency := some 12
    contributionFrequency := "month"
    timingChecked := some "end" }

/-- The closed-form future value the claim about monthly cadence compares the
loop with, contributions at the end of each month:
`initial*(1+r)^N + c*((1+r)^N - 1)/r`. -/
def futureValueEnd (initial c r : ℚ) (N : ℕ) : ℚ :=
  initial * (1 + r) ^ N + c * ((1 + r) ^ N - 1) / r

/-- The closed-form future value the claim about monthly cadence compares the
loop with, contributions at the beginning of each month:
`initial*(1+r)^N + c*(1+r)*((1+r)^N - 1)/r`. -/
def futureValueBegin (initial c r : ℚ) (N : ℕ) : ℚ :=
  initial * (1 + r) ^ N + c * (1 + r) * ((1 + r) ^ N - 1) / r

/-- A form inside the data model whose contributions overflow: 1e308 initial,
1e308 a month, 12 percent, one year, monthly cadence, end of month. -/
def overflowForm : InvestmentForm :=
  { initialAmount := some (10 ^ 308)
    monthlyContribution := some (10 ^ 308)
    annualRate := some 12
    years := some 1
    compoundingFrequency := some 12
    contributionFrequency := "month"
    timingChecked := some "end" }

/-- The worked scenario stretched to 10^15 years. -/
def longRunForm : InvestmentForm :=
  { initialAmount := some 1000
    monthlyContribution := some 100
    annualRate := some 12
    years := some 1000000000000000
    compoundingFrequency := some 12
    contributionFrequency := "month"
    timingChecked := some "end" }

/-- A form with no contribution and no interest over 10^15 years. -/
def idleLongRunForm : InvestmentForm :=
  { initialAmount := some 1000
    monthlyContribution := some 0
    annualRate := some 0
    years := some 1000000000000000
    compoundingFrequency := some 12
    contributionFrequency := "month"
    timingChecked := some "end" }

/-! ## Binary64 arithmetic

The second embedding computes as JavaScript does, in IEEE 754 binary64 with
rounding to nearest, ties to even. A finite double is an integer multiple of
`2^(-1074)`, the smallest subnormal, so it is stored as that integer; the two
zeros are identified, since the modelled code never divides by a zero and
never looks at the sign of a zero. -/

/-- Number of binary digits of `n`, by at most `fuel` halvings. -/
def bitLength : ℕ → ℕ → ℕ
  | 0, _ => 0
  | fuel + 1, n => if n = 0 then 0 else bitLength fuel (n / 2) + 1

/-- The quotient `a / b` (in units of `2^(-1074)`) rounded to the binary64
grid, to nearest with ties to even. Below `2^53` units the grid has spacing 1
(subnormals and the first normal binade); a quotient of `53 + s` binary digits
lies on a grid of spacing `2^s`. -/
def roundNat (a b : ℕ) : ℕ :=
  let s := bitLength (a / b) (a / b) - 53
  let d := b * 2 ^ s
  let q := a / d
  let r := a % d
  if 2 * r < d then q * 2 ^ s
  else if d < 2 * r then (q + 1) * 2 ^ s
  else if q % 2 = 0 then q * 2 ^ s
  else (q + 1) * 2 ^ s

/-- A JavaScript number: `NaN`, an infinity with its sign, or the finite
double `n * 2^(-1074)`. -/
inductive F64 where
  | nan
  | inf (negative : Bool)
  | fin (n : ℤ)
  deriving DecidableEq

namespace F64

/-- The double nearest to `num / den` units of `2^(-1074)`; a rounded
magnitude of `2^1024` or more overflows to an infinity. -/
def ofUnits (num : ℤ) (den : ℕ) : F64 :=
  let n := roundNat num.natAbs den
  if 2 ^ 2098 ≤ n then inf (decide (num < 0))
  else if num < 0 then fin (-(n : ℤ)) else fin (n : ℤ)

/-- The double nearest to the rational `q`: a decimal literal, or the text of
a form field read by `parseFloat`. -/
def ofRat (q : ℚ) : F64 := ofUnits (q.num * 2 ^ 1074) q.den

/-- The exact value of a finite double (0 for `NaN` and the infinities). -/
def toRat : F64 → ℚ
  | fin n => (n : ℚ) / 2 ^ 1074
  | _ => 0

/-- The operator `+`. -/
def add : F64 → F64 → F64
  | nan, _ => nan
  | _, nan => nan
  | inf s, inf t => if s = t then inf s else nan
  | inf s, fin _ => inf s
  | fin _, inf t => inf t
  | fin a, fin b => ofUnits (a + b) 1

/-- Unary minus. -/
def neg : F64 → F64
  | nan => nan
  | inf s => inf (!s)
  | fin a => fin (-a)

/-- The operator `-`. -/
def sub (x y : F64) : F64 := add x (neg y)

/-- The operator `*`. -/
def mul : F64 → F64 → F64
  | nan, _ => nan
  | _, nan => nan
  | inf s, inf t => inf (xor s t)
  | inf s, fin b => if b = 0 then nan else inf (xor s (decide (b < 0)))
  | fin a, inf t => if a = 0 then nan else inf (xor (decide (a < 0)) t)
  | fin a, fin b => ofUnits (a * b) (2 ^ 1074)

/-- The operator `/`. A zero divisor is taken as `+0`. -/
def div : F64 → F64 → F64
  | nan, _ => nan
  | _, nan => nan
  | inf _, inf _ => nan
  | inf s, fin b => inf (xor s (decide (b < 0)))
  | fin _, inf _ => fin 0
  | fin a, fin b =>
    if b = 0 then (if a = 0 then nan else inf (decide (a < 0)))
    else ofUnits (a * 2 ^ 1074 * Int.sign b) b.natAbs

/-- The operator `%`: the remainder has the sign of the dividend and is exact. -/
def mod : F64 → F64 → F64
  | nan, _ => nan
  | _, nan => nan
  | inf _, _ => nan
  | fin a, inf _ => fin a
  | fin a, fin b =>
    if b = 0 then nan
    else if a < 0 then fin (-((a.natAbs % b.natAbs : ℕ) : ℤ))
    else fin ((a.natAbs % b.natAbs : ℕ) : ℤ)

/-- The operator `<`. -/
def lt : F64 → F64 → Bool
  | nan, _ => false
  | _, nan => false
  | inf s, inf t => s && !t
  | inf s, fin _ => s
  | fin _, inf t => !t
  | fin a, fin b => decide (a < b)

/-- The operator `<=`. -/
def le : F64 → F64 → Bool
  | nan, _ => false
  | _, nan => false
  | inf s, inf t => s || !t
  | inf s, fin _ => s
  | fin _, inf t => !t
  | fin a, fin b => decide (a ≤ b)

/-- The operator `===` on numbers. -/
def eq : F64 → F64 → Bool
  | nan, _ => false
  | _, nan => false
  | inf s, inf t => s == t
  | inf _, fin _ => false
  | fin _, inf _ => false
  | fin a, fin b => decide (a = b)

/-- `Math.max` of two numbers. -/
def max : F64 → F64 → F64
  | nan, _ => nan
  | _, nan => nan
  | x, y => if lt x y then y else x

/-- The idiom `x || d`: `NaN` and zero are falsy. -/
def orElse (x d : F64) : F64 :=
  match x with
  | nan => d
  | inf s => inf s
  | fin n => if n = 0 then d else fin n

/-- `Math.round`: the nearest integer, ties towards plus infinity, computed
exactly. -/
def mathRound : F64 → F64
  | nan => nan
  | inf s => inf s
  | fin n => fin ((2 * n + 2 ^ 1074) / 2 ^ 1075 * 2 ^ 1074)

end F64

/-! ## The calculators on doubles -/

/-- `parseFloat` of a form field: the typed decimal rounded to the nearest
double, `NaN` when the text is unparsable. -/
def parseFloat64 (field : Option ℚ) : F64 :=
  match field with
  | none => F64.nan
  | some q => F64.ofRat q

/-- What `updateBudgetBar` writes, on doubles: the three bar widths and, for
the label, the three numbers handed to `toFixed(0)` (`none` for the empty
text). -/
structure BudgetBar64 where
  widthBills : F64
  widthSavings : F64
  widthLeftover : F64
  label : Option (F64 × F64 × F64)
  deriving DecidableEq

/-- The local `totalForChart` of `updateBudgetBar` (line 145), on doubles. -/
def totalForChart64 (bills savings leftover : F64) : F64 :=
  let safeLeftover := F64.max leftover (F64.ofRat 0)
  F64.orElse
    (F64.add (F64.add (F64.max bills (F64.ofRat 0)) (F64.max savings (F64.ofRat 0)))
      safeLeftover)
    (F64.ofRat 1)

/-- The local `billsPct` of `updateBudgetBar`, on doubles. -/
def billsPct64 (bills savings leftover : F64) : F64 :=
  F64.mul (F64.div (F64.max bills (F64.ofRat 0)) (totalForChart64 bills savings leftover))
    (F64.ofRat 100)

/-- The local `savingsPct` of `updateBudgetBar`, on doubles. -/
def savingsPct64 (bills savings leftover : F64) : F64 :=
  F64.mul (F64.div (F64.max savings (F64.ofRat 0)) (totalForChart64 bills savings leftover))
    (F64.ofRat 100)

/-- The local `leftoverPct` of `updateBudgetBar`, on doubles. -/
def leftoverPct64 (bills savings leftover : F64) : F64 :=
  let safeLeftover := F64.max leftover (F64.ofRat 0)
  F64.mul (F64.div safeLeftover (totalForChart64 bills savings leftover)) (F64.ofRat 100)

/-- The function `updateBudgetBar(income, bills, savings, leftover)`, on
doubles. -/
def updateBudgetBar64 (income bills savings leftover : F64) : BudgetBar64 :=
  if F64.le income (F64.ofRat 0) then
    { widthBills := F64.ofRat 0, widthSavings := F64.ofRat 0, widthLeftover := F64.ofRat 0
      label := none }
  else
    { widthBills := billsPct64 bills savings leftover
      widthSavings := savingsPct64 bills savings leftover
      widthLeftover := leftoverPct64 bills savings leftover
      label := some (billsPct64 bills savings leftover, savingsPct64 bills savings leftover,
        leftoverPct64 bills savings leftover) }

/-- The accumulation `totalBills += parseFloat(amountInput.value) || 0` over
the bill rows, on doubles, in document order. -/
def sumBills64 (rows : List (Option ℚ)) : F64 :=
  rows.foldl
    (fun totalBills amount =>
      F64.add totalBills (F64.orElse (parseFloat64 amount) (F64.ofRat 0)))
    (F64.ofRat 0)

/-- What `calculateBudget` produces, on doubles. -/
structure BudgetResult64 where
  income : F64
  totalBills : F64
  targetSavings : F64
  leftoverAfterBills : F64
  leftoverAfterSavings : F64
  bar : BudgetBar64
  deriving DecidableEq

/-- The function `calculateBudget`, on doubles. -/
def calculateBudget64 (form : BudgetForm) : BudgetResult64 :=
  let income := F64.orElse (parseFloat64 form.income) (F64.ofRat 0)
  let targetSavings := F64.orElse (parseFloat64 form.targetSavings) (F64.ofRat 0)
  let totalBills := sumBills64 form.billRows
  let leftoverAfterBills := F64.sub income totalBills
  let leftoverAfterSavings := F64.sub leftoverAfterBills targetSavings
  { income := income
    totalBills := totalBills
    targetSavings := targetSavings
    leftoverAfterBills := leftoverAfterBills
    leftoverAfterSavings := leftoverAfterSavings
    bar := updateBudgetBar64 income totalBills targetSavings leftoverAfterBills }

/-- The two variables updated by the monthly loop, on doubles. -/
structure LoopState64 where
  balance : F64
  totalContributions : F64
  deriving DecidableEq

/-- One iteration of the loop body of `calculateInvestment`, on doubles, for
the counter value `m`. -/
def monthStep64 (contribFrequency timing : String) (monthly monthlyRate : F64)
    (s : LoopState64) (m : F64) : LoopState64 :=
  let isContributionMonth : Bool :=
    if contribFrequency = "month" then true
    else F64.eq (F64.mod m (F64.ofRat 12)) (F64.ofRat 0)
  let add : F64 :=
    if contribFrequency = "month" then monthly else F64.mul monthly (F64.ofRat 12)
  let s1 : LoopState64 :=
    if isContributionMonth && timing == "begin" then
      { balance := F64.add s.balance add
        totalContributions := F64.add s.totalContributions add }
    else s
  let s2 : LoopState64 :=
    if F64.lt (F64.ofRat 0) monthlyRate then
      { s1 with balance := F64.mul s1.balance (F64.add (F64.ofRat 1) monthlyRate) }
    else s1
  if isContributionMonth && timing == "end" then
    { balance := F64.add s2.balance add
      totalContributions := F64.add s2.totalContributions add }
  else s2

/-- The loop `for (let m = 1; m <= totalMonths; m++)` on doubles, counter
included, from the counter value `m` and the state `s`: `some` final state
when the loop exits within `fuel` tests of its condition, `none` otherwise. -/
def forLoop64 (contribFrequency timing : String) (monthly monthlyRate totalMonths : F64) :
    ℕ → F64 → LoopState64 → Option LoopState64
  | 0, _, _ => none
  | fuel + 1, m, s =>
    if F64.le m totalMonths then
      forLoop64 contribFrequency timing monthly monthlyRate totalMonths fuel
        (F64.add m (F64.ofRat 1))
        (monthStep64 contribFrequency timing monthly monthlyRate s m)
    else some s

/-- What `updateInvestmentBar` writes, on doubles. -/
structure InvestmentBar64 where
  widthContributions : F64
  widthGrowth : F64
  deriving DecidableEq

/-- The local `total` of `updateInvestmentBar` (line 230), on doubles. -/
def investmentBarTotal64 (contributions growth : F64) : F64 :=
  let contribSafe := F64.max contributions (F64.ofRat 0)
  let growthSafe := F64.max growth (F64.ofRat 0)
  F64.orElse (F64.add contribSafe growthSafe) (F64.ofRat 1)

/-- The local `contribPct` of `updateInvestmentBar`, on doubles. -/
def contribPct64 (contributions growth : F64) : F64 :=
  let contribSafe := F64.max contributions (F64.ofRat 0)
  F64.mul (F64.div contribSafe (investmentBarTotal64 contributions growth)) (F64.ofRat 100)

/-- The local `growthPct` of `updateInvestmentBar`, on doubles. -/
def growthPct64 (contributions growth : F64) : F64 :=
  let growthSafe := F64.max growth (F64.ofRat 0)
  F64.mul (F64.div growthSafe (investmentBarTotal64 contributions growth)) (F64.ofRat 100)

/-- The function `updateInvestmentBar(contributions, growth)`, on doubles. -/
def updateInvestmentBar64 (contributions growth : F64) : InvestmentBar64 :=
  { widthContributions := contribPct64 contributions growth
    widthGrowth := growthPct64 contributions growth }

/-- What `calculateInvestment` produces, on doubles. -/
structure InvestmentResult64 where
  totalContributions : F64
  finalBalance : F64
  growth : F64
  bar : InvestmentBar64
  deriving DecidableEq

/-- The local `totalMonths` of `calculateInvestment` (lines 171, 178, 179), on
doubles. -/
def totalMonths64 (yearsField : Option ℚ) : F64 :=
  let years := F64.orElse (parseFloat64 yearsField) (F64.ofRat 0)
  let totalYears := F64.max years (F64.ofRat 0)
  F64.mathRound (F64.mul totalYears (F64.ofRat 12))

/-- The local `monthlyRate` of `calculateInvestment` (lines 170, 180, 183), on
doubles. -/
def monthlyRate64 (annualRateField : Option ℚ) : F64 :=
  let annualRate :=
    F64.div (F64.orElse (parseFloat64 annualRateField) (F64.ofRat 0)) (F64.ofRat 100)
  let ratePerYear := F64.max annualRate (F64.ofRat 0)
  F64.div ratePerYear (F64.ofRat 12)

/-- The function `calculateInvestment`, on doubles: `none` when the loop has
not exited within `fuel` tests of its condition. -/
def calculateInvestment64 (fuel : ℕ) (form : InvestmentForm) : Option InvestmentResult64 :=
  let initial := F64.orElse (parseFloat64 form.initialAmount) (F64.ofRat 0)
  let monthly := F64.orElse (parseFloat64 form.monthlyContribution) (F64.ofRat 0)
  let contribFrequency := form.contributionFrequency
  let timing := timingOf form.timingChecked
  let totalMonths := totalMonths64 form.years
  let monthlyRate := monthlyRate64 form.annualRate
  match forLoop64 contribFrequency timing monthly monthlyRate totalMonths fuel (F64.ofRat 1)
      { balance := initial, totalContributions := initial } with
  | none => none
  | some final =>
    let finalBalance := final.balance
    let growth := F64.sub finalBalance final.totalContributions
    some
      { totalContributions := final.totalContributions
        finalBalance := finalBalance
        growth := growth
        bar := updateInvestmentBar64 final.totalContributions growth }

/-! ## Evaluation lemmas -/

theorem timingOf_end : timingOf (some "end") = "end" := by
  simp [timingOf]

theorem timingOf_begin : timingOf (some "begin") = "begin" := by
  simp [timingOf]

theorem totalMonthsOf_one : totalMonthsOf (some 1) = 12 := by
  simp [totalMonthsOf, orDefault, mathRound]
  norm_num
  rfl

theorem monthlyRateOf_twelve : monthlyRateOf (some 12) = 1 / 100 := by
  simp [monthlyRateOf, orDefault]
  norm_num

theorem scenario_state :
    simulate "month" "end" 100 (1 / 100) 1000 12
      = { balance := 2395075331451666927273211 / 1000000000000000000000
          totalContributions := 2200 } := by
  simp [simulate, List.range', monthStep]
  norm_num

/-! ## The loop, one month at a time -/

theorem simulate_zero (f t : String) (c r i : ℚ) :
    simulate f t c r i 0 = { balance := i, totalContributions := i } := by
  simp [simulate]

theorem simulate_succ (f t : String) (c r i : ℚ) (n : ℕ) :
    simulate f t c r i (n + 1) = monthStep f t c r (simulate f t c r i n) (n + 1) := by
  simp [simulate, List.range'_concat, List.foldl_append, Nat.add_comm]

theorem monthStep_month_end (c r : ℚ) (s : LoopState) (m : ℕ) (hr : 0 < r) :
    monthStep "month" "end" c r s m
      = { balance := s.balance * (1 + r) + c
          totalContributions := s.totalContributions + c } := by
  simp [monthStep, hr]

theorem monthStep_month_begin (c r : ℚ) (s : LoopState) (m : ℕ) (hr : 0 < r) :
    monthStep "month" "begin" c r s m
      = { balance := (s.balance + c) * (1 + r)
          totalContributions := s.totalContributions + c } := by
  simp [monthStep, hr]

/-- Closed form of the loop: monthly cadence, contributions at the end. -/
theorem simulate_month_end_balance (c r i : ℚ) (hr : 0 < r) (n : ℕ) :
    (simulate "month" "end" c r i n).balance
      = i * (1 + r) ^ n + c * ((1 + r) ^ n - 1) / r := by
  have hr0 : r ≠ 0 := ne_of_gt hr
  induction n with
  | zero => simp [simulate_zero]
  | succ k ih =>
    rw [simulate_succ, monthStep_month_end _ _ _ _ hr]
    simp only [ih]
    field_simp
    ring

/-- Closed form of the loop: monthly cadence, contributions at the beginning. -/
theorem simulate_month_begin_balance (c r i : ℚ) (hr : 0 < r) (n : ℕ) :
    (simulate "month" "begin" c r i n).balance
      = i * (1 + r) ^ n + c * (1 + r) * ((1 + r) ^ n - 1) / r := by
  have hr0 : r ≠ 0 := ne_of_gt hr
  induction n with
  | zero => simp [simulate_zero]
  | succ k ih =>
    rw [simulate_succ, monthStep_month_begin _ _ _ _ hr]
    simp only [ih]
    field_simp
    ring

/-- The contribution total of one step, whatever the rate: the amount of the
month is added once when the timing is one of the two radio values. -/
theorem monthStep_totalContributions (f t : String) (c r : ℚ) (s : LoopState) (m : ℕ)
    (ht : t = "begin" ∨ t = "end") :
    (monthStep f t c r s m).totalContributions
      = s.totalContributions
        + (if f = "month" then c else if m % 12 = 0 then 12 * c else 0) := by
  rcases ht with rfl | rfl <;> by_cases hf : f = "month" <;> by_cases hm : m % 12 = 0 <;>
    by_cases hr : 0 < r <;> simp [monthStep, hf, hm, hr, mul_comm]

theorem simulate_totalContributions (f t : String) (c r i : ℚ) (n : ℕ)
    (ht : t = "begin" ∨ t = "end") :
    (simulate f t c r i n).totalContributions
      = if f = "month" then i + c * n else i + 12 * c * ((n / 12 : ℕ) : ℚ) := by
  induction n with
  | zero => simp [simulate_zero]
  | succ k ih =>
    rw [simulate_succ, monthStep_totalContributions f t c r _ _ ht, ih]
    by_cases hf : f = "month"
    · simp only [hf, if_true]
      push_cast
      ring
    · simp only [hf, if_false]
      rw [Nat.succ_div]
      by_cases hd : 12 ∣ k + 1
      · have hm : (k + 1) % 12 = 0 := Nat.mod_eq_zero_of_dvd hd
        simp only [hd, hm, if_true]
        push_cast
        ring
      · have hm : ¬ (k + 1) % 12 = 0 := fun h => hd (Nat.dvd_of_mod_eq_zero h)
        simp only [hd, hm, if_false]
        push_cast
        ring

/-- Loop invariant behind non-negative growth: with a non-negative contribution
and a non-negative rate, the contributions stay non-negative and the balance
never falls below them. -/
theorem monthStep_invariant (f t : String) (c r : ℚ) (s : LoopState) (m : ℕ)
    (hc : 0 ≤ c) (hr : 0 ≤ r)
    (h0 : 0 ≤ s.totalContributions) (hb : s.totalContributions ≤ s.balance) :
    0 ≤ (monthStep f t c r s m).totalContributions ∧
      (monthStep f t c r s m).totalContributions ≤ (monthStep f t c r s m).balance := by
  have hb0 : 0 ≤ s.balance := le_trans h0 hb
  have hgrow : ∀ x : ℚ, 0 ≤ x → x ≤ x * (1 + r) := fun x hx => by nlinarith
  have h12 : 0 ≤ c * 12 := by linarith
  have e1 := hgrow s.balance hb0
  have e2 := hgrow (s.balance + c) (by linarith)
  have e3 := hgrow (s.balance + c * 12) (by linarith)
  unfold monthStep
  by_cases hf : f = "month" <;> by_cases hm : m % 12 = 0 <;>
    by_cases hrp : 0 < r <;> by_cases htb : t = "begin" <;> by_cases hte : t = "end" <;>
    simp [hf, hm, hrp, htb, hte] <;> constructor <;> linarith

theorem simulate_invariant (f t : String) (c r i : ℚ) (n : ℕ)
    (hc : 0 ≤ c) (hr : 0 ≤ r) (hi : 0 ≤ i) :
    0 ≤ (simulate f t c r i n).totalContributions ∧
      (simulate f t c r i n).totalContributions ≤ (simulate f t c r i n).balance := by
  induction n with
  | zero => simp [simulate_zero, hi]
  | succ k ih =>
    rw [simulate_succ]
    exact monthStep_invariant f t c r _ _ hc hr ih.1 ih.2

/-- With no contribution and no interest, a step changes nothing. -/
theorem monthStep_idle (f t : String) (s : LoopState) (m : ℕ) :
    monthStep f t 0 0 s m = s := by
  unfold monthStep
  by_cases hf : f = "month" <;> by_cases hm : m % 12 = 0 <;>
    by_cases htb : t = "begin" <;> by_cases hte : t = "end" <;>
    simp [hf, hm, htb, hte]

theorem simulate_idle (f t : String) (i : ℚ) (n : ℕ) :
    simulate f t 0 0 i n = { balance := i, totalContributions := i } := by
  induction n with
  | zero => simp [simulate_zero]
  | succ k ih => rw [simulate_succ, ih, monthStep_idle]

/-! ## Derived inputs -/

theorem orDefault_zero_eq_getD (v : Option ℚ) : orDefault v 0 = v.getD 0 := by
  cases v with
  | none => rfl
  | some x =>
    by_cases hx : x = 0
    · simp [orDefault, hx]
    · simp [orDefault, hx]

theorem monthlyRateOf_nonneg (v : Option ℚ) : 0 ≤ monthlyRateOf v := by
  unfold monthlyRateOf
  exact div_nonneg (le_max_right _ _) (by norm_num)

theorem monthlyRateOf_of_zero (v : Option ℚ) (h : orDefault v 0 = 0) :
    monthlyRateOf v = 0 := by
  simp [monthlyRateOf, h]

theorem totalMonthsOf_of_nonpos (v : Option ℚ) (h : orDefault v 0 ≤ 0) :
    totalMonthsOf v = 0 := by
  have h0 : Int.floor ((1 : ℚ) / 2) = 0 := by
    rw [Int.floor_eq_iff]
    norm_num
  simp only [totalMonthsOf, mathRound, max_eq_right h, zero_mul, zero_add, h0]
  rfl

/-- The twelve steps of a one-year run with yearly cadence and contributions
at the beginning: eleven months of interest only, then the yearly amount
followed by the interest of month 12. -/
theorem simulate_year_begin_12 (c r i : ℚ) (hr : 0 ≤ r) :
    simulate "year" "begin" c r i 12
      = { balance := (i * (1 + r) ^ 11 + 12 * c) * (1 + r)
          totalContributions := i + 12 * c } := by
  rcases lt_or_eq_of_le hr with hpos | hzero
  · ext
    · simp [simulate, List.range', monthStep, hpos, -mul_eq_mul_right_iff, -mul_eq_mul_left_iff]
      ring
    · simp [simulate, List.range', monthStep, hpos]
      ring
  · subst hzero
    ext
    · simp [simulate, List.range', monthStep]
      ring
    · simp [simulate, List.range', monthStep]
      ring

theorem simulate_year_begin_11 (c r i : ℚ) (hr : 0 ≤ r) :
    simulate "year" "begin" c r i 11
      = { balance := i * (1 + r) ^ 11, totalContributions := i } := by
  rcases lt_or_eq_of_le hr with hpos | hzero
  · ext
    · simp [simulate, List.range', monthStep, hpos, -mul_eq_mul_right_iff, -mul_eq_mul_left_iff]
      ring
    · simp [simulate, List.range', monthStep, hpos]
  · subst hzero
    simp [simulate, List.range', monthStep]

theorem simulate_year_end_12 (c r i : ℚ) (hr : 0 ≤ r) :
    simulate "year" "end" c r i 12
      = { balance := i * (1 + r) ^ 12 + 12 * c
          totalContributions := i + 12 * c } := by
  rcases lt_or_eq_of_le hr with hpos | hzero
  · ext
    · simp [simulate, List.range', monthStep, hpos, -mul_eq_mul_right_iff, -mul_eq_mul_left_iff]
      ring
    · simp [simulate, List.range', monthStep, hpos]
      ring
  · subst hzero
    ext
    · simp [simulate, List.range', monthStep]
      ring
    · simp [simulate, List.range', monthStep]
      ring

/-! ## Allocation bars -/

theorem numOr_one_pos (x : ℚ) (hx : 0 ≤ x) : 0 < numOr x 1 := by
  unfold numOr
  by_cases h : x = 0
  · simp [h]
  · simp only [h, if_false]
    exact lt_of_le_of_ne hx (Ne.symm h)

theorem numOr_one_ge (x : ℚ) : x ≤ numOr x 1 := by
  unfold numOr
  by_cases h : x = 0
  · simp [h]
  · simp [h]

theorem share_bounds (a t : ℚ) (ha : 0 ≤ a) (ht : 0 < t) (hat : a ≤ t) :
    0 ≤ a / t * 100 ∧ a / t * 100 ≤ 100 := by
  constructor
  · exact mul_nonneg (div_nonneg ha (le_of_lt ht)) (by norm_num)
  · have h1 : a / t ≤ 1 := (div_le_one ht).mpr hat
    linarith

theorem totalForChart_pos (b s l : ℚ) : 0 < totalForChart b s l := by
  unfold totalForChart
  apply numOr_one_pos
  have h1 : (0 : ℚ) ≤ max b 0 := le_max_right _ _
  have h2 : (0 : ℚ) ≤ max s 0 := le_max_right _ _
  have h3 : (0 : ℚ) ≤ max l 0 := le_max_right _ _
  linarith

theorem totalForChart_ge (b s l : ℚ) :
    max b 0 + max s 0 + max l 0 ≤ totalForChart b s l := by
  unfold totalForChart
  exact numOr_one_ge _

theorem investmentBarTotal_pos (c g : ℚ) : 0 < investmentBarTotal c g := by
  unfold investmentBarTotal
  apply numOr_one_pos
  have h1 : (0 : ℚ) ≤ max c 0 := le_max_right _ _
  have h2 : (0 : ℚ) ≤ max g 0 := le_max_right _ _
  linarith

theorem investmentBarTotal_ge (c g : ℚ) :
    max c 0 + max g 0 ≤ investmentBarTotal c g := by
  unfold investmentBarTotal
  exact numOr_one_ge _

theorem billsPct_bounds (b s l : ℚ) : 0 ≤ billsPct b s l ∧ billsPct b s l ≤ 100 := by
  have h2 : (0 : ℚ) ≤ max s 0 := le_max_right _ _
  have h3 : (0 : ℚ) ≤ max l 0 := le_max_right _ _
  have hge := totalForChart_ge b s l
  exact share_bounds _ _ (le_max_right _ _) (totalForChart_pos b s l) (by linarith)

theorem savingsPct_bounds (b s l : ℚ) : 0 ≤ savingsPct b s l ∧ savingsPct b s l ≤ 100 := by
  have h1 : (0 : ℚ) ≤ max b 0 := le_max_right _ _
  have h3 : (0 : ℚ) ≤ max l 0 := le_max_right _ _
  have hge := totalForChart_ge b s l
  exact share_bounds _ _ (le_max_right _ _) (totalForChart_pos b s l) (by linarith)

theorem leftoverPct_bounds (b s l : ℚ) : 0 ≤ leftoverPct b s l ∧ leftoverPct b s l ≤ 100 := by
  have h1 : (0 : ℚ) ≤ max b 0 := le_max_right _ _
  have h2 : (0 : ℚ) ≤ max s 0 := le_max_right _ _
  have hge := totalForChart_ge b s l
  exact share_bounds _ _ (le_max_right _ _) (totalForChart_pos b s l) (by linarith)

theorem contribPct_bounds (c g : ℚ) : 0 ≤ contribPct c g ∧ contribPct c g ≤ 100 := by
  have h2 : (0 : ℚ) ≤ max g 0 := le_max_right _ _
  have hge := investmentBarTotal_ge c g
  exact share_bounds _ _ (le_max_right _ _) (investmentBarTotal_pos c g) (by linarith)

theorem growthPct_bounds (c g : ℚ) : 0 ≤ growthPct c g ∧ growthPct c g ≤ 100 := by
  have h1 : (0 : ℚ) ≤ max c 0 := le_max_right _ _
  have hge := investmentBarTotal_ge c g
  exact share_bounds _ _ (le_max_right _ _) (investmentBarTotal_pos c g) (by linarith)

theorem sumBills_foldl (rows : List (Option ℚ)) (a : ℚ) :
    rows.foldl (fun totalBills amount => totalBills + orDefault amount 0) a
      = a + (rows.map (fun amount => amount.getD 0)).sum := by
  induction rows generalizing a with
  | nil => simp
  | cons x xs ih =>
    rw [List.foldl_cons, ih, List.map_cons, List.sum_cons, orDefault_zero_eq_getD]
    ring

theorem sumBills_eq_sum (rows : List (Option ℚ)) :
    sumBills rows = (rows.map (fun amount => amount.getD 0)).sum := by
  simp [sumBills, sumBills_foldl]

theorem calculateInvestment_scenario :
    (calculateInvestment scenarioForm).totalContributions = 2200 ∧
      (calculateInvestment scenarioForm).finalBalance
        = 2395075331451666927273211 / 1000000000000000000000 := by
  have hm : orDefault (some 100) 0 = 100 := by simp [orDefault]
  have hi : orDefault (some 1000) 0 = 1000 := by simp [orDefault]
  simp only [calculateInvestment, scenarioForm, totalMonthsOf_one, monthlyRateOf_twelve,
    timingOf_end, timingOf_begin, hm, hi, scenario_state]
  exact ⟨trivial, trivial⟩

/-! ## Facts about binary64 rounding -/

theorem bitLength_le (fuel : ℕ) : ∀ n k : ℕ, n < 2 ^ k → bitLength fuel n ≤ k := by
  induction fuel with
  | zero => intro n k _; simp [bitLength]
  | succ f ih =>
    intro n k h
    unfold bitLength
    by_cases hn : n = 0
    · simp [hn]
    · simp only [hn, if_false]
      cases k with
      | zero =>
        simp at h
        exact absurd h hn
      | succ j =>
        have h2 : n / 2 < 2 ^ j := by
          rw [Nat.div_lt_iff_lt_mul (by norm_num)]
          rw [pow_succ] at h
          exact h
        have := ih (n / 2) j h2
        omega

theorem pow_bitLength_pred_le (fuel : ℕ) : ∀ n : ℕ, n ≠ 0 → 2 ^ (bitLength fuel n - 1) ≤ n := by
  induction fuel with
  | zero =>
    intro n hn
    simp [bitLength]
    omega
  | succ f ih =>
    intro n hn
    unfold bitLength
    simp only [hn, if_false, Nat.add_sub_cancel]
    by_cases h2 : n / 2 = 0
    · have : bitLength f (n / 2) = 0 := by
        rw [h2]
        cases f <;> simp [bitLength]
      rw [this]
      simp
      omega
    · have h := ih (n / 2) h2
      by_cases hb : bitLength f (n / 2) = 0
      · rw [hb]
        simp
        omega
      · have e : bitLength f (n / 2) = (bitLength f (n / 2) - 1) + 1 := by omega
        rw [e, pow_succ]
        have := Nat.div_mul_le_self n 2
        omega

/-- A magnitude below `2^(53+1074)` units that is a whole multiple of `2^1074`
units (an integer below `2^53`) is on the grid: rounding leaves it alone. -/
theorem roundNat_exact (a : ℕ) (ha : a < 2 ^ (53 + 1074)) (hd : 2 ^ 1074 ∣ a) :
    roundNat a 1 = a := by
  unfold roundNat
  simp only [Nat.div_one, one_mul]
  have hs : bitLength a a - 53 ≤ 1074 := by
    have := bitLength_le a a (53 + 1074) ha
    omega
  have hdvd : 2 ^ (bitLength a a - 53) ∣ a := (pow_dvd_pow 2 hs).trans hd
  have hr : a % 2 ^ (bitLength a a - 53) = 0 := Nat.mod_eq_zero_of_dvd hdvd
  have hpos : 0 < 2 ^ (bitLength a a - 53) := by positivity
  simp only [hr, mul_zero, hpos, if_true]
  exact Nat.div_mul_cancel hdvd

theorem F64.ofUnits_exact (k : ℤ) (h0 : 0 ≤ k) (h1 : k < 2 ^ 53) :
    F64.ofUnits (k * 2 ^ 1074) 1 = F64.fin (k * 2 ^ 1074) := by
  obtain ⟨j, rfl⟩ := Int.eq_ofNat_of_zero_le h0
  have hj : j < 2 ^ 53 := by exact_mod_cast h1
  have hcast : ((j : ℤ) * 2 ^ 1074) = ((j * 2 ^ 1074 : ℕ) : ℤ) := by
    rw [Nat.cast_mul, Nat.cast_pow, Nat.cast_ofNat]
  have hpos : (0 : ℕ) < 2 ^ 1074 := pow_pos (by norm_num) 1074
  have hlt : j * 2 ^ 1074 < 2 ^ (53 + 1074) := by
    rw [pow_add]
    exact Nat.mul_lt_mul_of_pos_right hj hpos
  have hex := roundNat_exact (j * 2 ^ 1074) hlt (Dvd.intro_left j rfl)
  have hsmall : ¬ (2 ^ 2098 ≤ j * 2 ^ 1074) := by
    have h53 : 53 + 1074 ≤ 2098 := by norm_num
    exact not_le.mpr (lt_of_lt_of_le hlt (pow_le_pow_right₀ (by norm_num) h53))
  have hneg : ¬ (((j * 2 ^ 1074 : ℕ) : ℤ) < 0) := not_lt.mpr (Int.ofNat_nonneg _)
  rw [hcast]
  unfold F64.ofUnits
  rw [Int.natAbs_ofNat]
  rw [hex]
  rw [if_neg hsmall]
  rw [if_neg hneg]

theorem F64.one_eq : F64.ofRat 1 = F64.fin (1 * 2 ^ 1074) := by decide!

/-- The increment `m++` of an integer counter below `2^53` is exact. -/
theorem F64.counter_succ (k : ℤ) (h0 : 0 ≤ k) (h1 : k + 1 < 2 ^ 53) :
    F64.add (F64.fin (k * 2 ^ 1074)) (F64.ofRat 1) = F64.fin ((k + 1) * 2 ^ 1074) := by
  rw [F64.one_eq]
  simp only [F64.add]
  rw [← add_mul]
  exact F64.ofUnits_exact (k + 1) (by omega) h1

/-- At `2^53 - 1` the increment reaches `2^53`. -/
theorem F64.counter_last :
    F64.add (F64.fin ((2 ^ 53 - 1) * 2 ^ 1074)) (F64.ofRat 1) = F64.fin (2 ^ 53 * 2 ^ 1074) := by
  decide!

/-- At `2^53` the increment `m++` stalls: `2^53 + 1` rounds back to `2^53`. -/
theorem F64.counter_stall :
    F64.add (F64.fin (2 ^ 53 * 2 ^ 1074)) (F64.ofRat 1) = F64.fin (2 ^ 53 * 2 ^ 1074) := by
  decide!

/-- When every integer up to `2^53` passes the test `m <= totalMonths`, the
loop never exits: from a counter in that range it is still running after any
number of tests. -/
theorem forLoop64_never_exits (f t : String) (c r N : F64)
    (hN : ∀ k : ℤ, k ≤ 2 ^ 53 → F64.le (F64.fin (k * 2 ^ 1074)) N = true) (fuel : ℕ) :
    ∀ (k : ℤ) (s : LoopState64), 0 ≤ k → k ≤ 2 ^ 53 →
      forLoop64 f t c r N fuel (F64.fin (k * 2 ^ 1074)) s = none := by
  induction fuel with
  | zero => intro k s _ _; rfl
  | succ n ih =>
    intro k s h0 h1
    unfold forLoop64
    simp only [hN k h1, if_true]
    rcases lt_trichotomy (k + 1) (2 ^ 53) with hlt | heq | hgt
    · rw [F64.counter_succ k h0 hlt]
      exact ih (k + 1) _ (by omega) (by omega)
    · have hk : k = 2 ^ 53 - 1 := by omega
      subst hk
      rw [F64.counter_last]
      exact ih (2 ^ 53) _ (by norm_num) (le_refl _)
    · have hk : k = 2 ^ 53 := by omega
      subst hk
      rw [F64.counter_stall]
      exact ih (2 ^ 53) _ (by norm_num) (le_refl _)

/-- Rounding a non-zero magnitude never gives zero. -/
theorem roundNat_pos (a : ℕ) (ha : a ≠ 0) : 0 < roundNat a 1 := by
  unfold roundNat
  simp only [Nat.div_one, one_mul]
  have hb := pow_bitLength_pred_le a a ha
  have hle : 2 ^ (bitLength a a - 53) ≤ a :=
    le_trans (Nat.pow_le_pow_right (by norm_num) (by omega)) hb
  have hpos : 0 < 2 ^ (bitLength a a - 53) := pow_pos (by norm_num) _
  have hq : 0 < a / 2 ^ (bitLength a a - 53) := Nat.div_pos hle hpos
  split_ifs
  · exact Nat.mul_pos hq hpos
  · exact Nat.mul_pos (Nat.succ_pos _) hpos
  · exact Nat.mul_pos hq hpos
  · exact Nat.mul_pos (Nat.succ_pos _) hpos

theorem F64.zero_eq : F64.ofRat 0 = F64.fin 0 := by decide!

/-- A rounded integer number of units is negative exactly when the integer is. -/
theorem F64.ofUnits_lt_zero (n : ℤ) :
    F64.lt (F64.ofUnits n 1) (F64.fin 0) = decide (n < 0) := by
  unfold F64.ofUnits
  by_cases hov : 2 ^ 2098 ≤ roundNat n.natAbs 1
  · simp only [hov, if_true, F64.lt]
  · simp only [hov, if_false]
    by_cases hn : n < 0
    · have hne : n.natAbs ≠ 0 := by
        intro h
        rw [Int.natAbs_eq_zero] at h
        omega
      have hp := roundNat_pos n.natAbs hne
      have : -((roundNat n.natAbs 1 : ℕ) : ℤ) < 0 := by omega
      simp only [hn, if_true, F64.lt, this]
    · have : ¬ (((roundNat n.natAbs 1 : ℕ) : ℤ) < 0) := by omega
      simp only [hn, if_false, F64.lt, this]

/-- The difference `a - b` of two doubles is negative exactly when `a < b`. -/
theorem F64.sub_lt_zero (a b : F64) :
    F64.lt (F64.sub a b) (F64.ofRat 0) = F64.lt a b := by
  rw [F64.zero_eq]
  cases a with
  | nan => cases b <;> simp [F64.sub, F64.add, F64.neg, F64.lt]
  | inf s =>
    cases b with
    | nan => simp [F64.sub, F64.add, F64.neg, F64.lt]
    | inf t => cases s <;> cases t <;> simp [F64.sub, F64.add, F64.neg, F64.lt]
    | fin y => simp [F64.sub, F64.add, F64.neg, F64.lt]
  | fin x =>
    cases b with
    | nan => simp [F64.sub, F64.add, F64.neg, F64.lt]
    | inf t => cases t <;> simp [F64.sub, F64.add, F64.neg, F64.lt]
    | fin y =>
      simp only [F64.sub, F64.neg, F64.add]
      rw [F64.ofUnits_lt_zero]
      simp only [F64.lt]
      by_cases h : x < y
      · have : x + -y < 0 := by omega
        simp [h, this]
      · have : ¬ (x + -y < 0) := by omega
        simp [h, this]

theorem F64.one_eq_fin : F64.ofRat 1 = F64.fin (2 ^ 1074) := by decide!

theorem F64.max_zero_not_neg (x : F64) :
    F64.lt (F64.max x (F64.ofRat 0)) (F64.ofRat 0) = false := by
  rw [F64.zero_eq]
  cases x with
  | nan => simp [F64.max, F64.lt]
  | inf s => cases s <;> simp [F64.max, F64.lt]
  | fin n =>
    by_cases h : n < 0
    · simp [F64.max, F64.lt, h]
    · simp [F64.max, F64.lt, h]

theorem F64.add_not_neg (x y : F64) (hx : F64.lt x (F64.ofRat 0) = false)
    (hy : F64.lt y (F64.ofRat 0) = false) :
    F64.lt (F64.add x y) (F64.ofRat 0) = false := by
  rw [F64.zero_eq] at *
  cases x with
  | nan => cases y <;> simp [F64.add, F64.lt]
  | inf s =>
    cases y with
    | nan => simp [F64.add, F64.lt]
    | inf t =>
      cases s <;> cases t <;> simp_all [F64.add, F64.lt]
    | fin b => cases s <;> simp_all [F64.add, F64.lt]
  | fin a =>
    cases y with
    | nan => simp [F64.add, F64.lt]
    | inf t => cases t <;> simp_all [F64.add, F64.lt]
    | fin b =>
      simp only [F64.add]
      rw [F64.ofUnits_lt_zero]
      simp only [F64.lt, decide_eq_false_iff_not, not_lt] at hx hy
      simp only [decide_eq_false_iff_not, not_lt]
      omega

/-- The idiom `sum || 1` on a sum that is not negative gives a strictly
positive denominator, also when the sum is `NaN`. -/
theorem F64.orElse_one_pos (x : F64) (hx : F64.lt x (F64.ofRat 0) = false) :
    F64.lt (F64.ofRat 0) (F64.orElse x (F64.ofRat 1)) = true := by
  rw [F64.zero_eq] at *
  rw [F64.one_eq_fin]
  have hU : (0 : ℤ) < 2 ^ 1074 := pow_pos (by norm_num) 1074
  generalize (2 : ℤ) ^ 1074 = U at hU ⊢
  cases x with
  | nan =>
    simp only [F64.orElse, F64.lt, decide_eq_true_eq]
    exact hU
  | inf s => cases s <;> simp_all [F64.orElse, F64.lt]
  | fin n =>
    simp only [F64.lt, decide_eq_false_iff_not, not_lt] at hx
    by_cases h0 : n = 0
    · simp only [F64.orElse, h0, if_true, F64.lt, decide_eq_true_eq]
      exact hU
    · have : 0 < n := lt_of_le_of_ne hx (Ne.symm h0)
      simp [F64.orElse, F64.lt, h0, this]

theorem totalForChart64_pos (b s l : F64) :
    F64.lt (F64.ofRat 0) (totalForChart64 b s l) = true := by
  unfold totalForChart64
  exact F64.orElse_one_pos _
    (F64.add_not_neg _ _ (F64.add_not_neg _ _ (F64.max_zero_not_neg b) (F64.max_zero_not_neg s))
      (F64.max_zero_not_neg l))

theorem investmentBarTotal64_pos (c g : F64) :
    F64.lt (F64.ofRat 0) (investmentBarTotal64 c g) = true := by
  unfold investmentBarTotal64
  exact F64.orElse_one_pos _
    (F64.add_not_neg _ _ (F64.max_zero_not_neg c) (F64.max_zero_not_neg g))

/-- The loop of `calculateInvestment` never exits when every integer up to
`2^53` passes the test against `totalMonths`: no amount of fuel yields a
result. -/
theorem calculateInvestment64_never_returns (form : InvestmentForm)
    (hN : ∀ k : ℤ, k ≤ 2 ^ 53 →
      F64.le (F64.fin (k * 2 ^ 1074)) (totalMonths64 form.years) = true)
    (fuel : ℕ) : calculateInvestment64 fuel form = none := by
  unfold calculateInvestment64
  have h := forLoop64_never_exits form.contributionFrequency (timingOf form.timingChecked)
    (F64.orElse (parseFloat64 form.monthlyContribution) (F64.ofRat 0))
    (monthlyRate64 form.annualRate) (totalMonths64 form.years) hN fuel 1
    { balance := F64.orElse (parseFloat64 form.initialAmount) (F64.ofRat 0)
      totalContributions := F64.orElse (parseFloat64 form.initialAmount) (F64.ofRat 0) }
    (by norm_num) (by norm_num)
  rw [F64.one_eq]
  simp only [h]

theorem totalMonths64_huge :
    totalMonths64 (some 1000000000000000) = F64.fin (12000000000000000 * 2 ^ 1074) := by
  decide!

theorem le_totalMonths64_huge (k : ℤ) (hk : k ≤ 2 ^ 53) :
    F64.le (F64.fin (k * 2 ^ 1074)) (totalMonths64 (some 1000000000000000)) = true := by
  rw [totalMonths64_huge]
  simp only [F64.le, decide_eq_true_eq]
  have hU : (0 : ℤ) ≤ 2 ^ 1074 := le_of_lt (pow_pos (by norm_num) 1074)
  exact mul_le_mul_of_nonneg_right (le_trans hk (by norm_num)) hU


/-- More fuel does not change a result the loop has already produced. -/
theorem forLoop64_fuel_mono (f t : String) (c r N : F64) (fuel : ℕ) :
    ∀ (m : F64) (s out : LoopState64) (extra : ℕ),
      forLoop64 f t c r N fuel m s = some out →
      forLoop64 f t c r N (fuel + extra) m s = some out := by
  induction fuel with
  | zero => intro m s out extra h; simp [forLoop64] at h
  | succ n ih =>
    intro m s out extra h
    rw [Nat.add_right_comm]
    unfold forLoop64 at h ⊢
    by_cases hc : F64.le m N = true
    · simp only [hc, if_true] at h ⊢
      exact ih _ _ _ _ h
    · simp only [hc, if_false] at h ⊢
      exact h

theorem calculateInvestment64_fuel_mono (form : InvestmentForm) (fuel extra : ℕ)
    (out : InvestmentResult64) (h : calculateInvestment64 fuel form = some out) :
    calculateInvestment64 (fuel + extra) form = some out := by
  simp only [calculateInvestment64] at h ⊢
  cases hl : forLoop64 form.contributionFrequency (timingOf form.timingChecked)
      (F64.orElse (parseFloat64 form.monthlyContribution) (F64.ofRat 0))
      (monthlyRate64 form.annualRate) (totalMonths64 form.years) fuel (F64.ofRat 1)
      { balance := F64.orElse (parseFloat64 form.initialAmount) (F64.ofRat 0)
        totalContributions := F64.orElse (parseFloat64 form.initialAmount) (F64.ofRat 0) } with
  | none => simp [hl] at h
  | some final =>
    rw [forLoop64_fuel_mono _ _ _ _ _ _ _ _ _ extra hl]
    rw [hl] at h
    exact h

theorem F64.orElse_ofUnits (num : ℤ) (den : ℕ) :
    F64.orElse (F64.ofUnits num den) (F64.ofRat 0) = F64.ofUnits num den := by
  rw [F64.zero_eq]
  unfold F64.ofUnits
  simp only
  split_ifs with h1 h2
  · rfl
  · by_cases h0 : -((roundNat num.natAbs den : ℕ) : ℤ) = 0
    · simp [F64.orElse, h0]
    · simp [F64.orElse, h0]
  · by_cases h0 : ((roundNat num.natAbs den : ℕ) : ℤ) = 0
    · simp [F64.orElse, h0]
    · simp [F64.orElse, h0]

/-- A field read as `parseFloat(s) || 0` is the typed decimal rounded to a
double, 0 when the text is unparsable. -/
theorem orElse_parseFloat64 (field : Option ℚ) :
    F64.orElse (parseFloat64 field) (F64.ofRat 0)
      = (field.map F64.ofRat).getD (F64.ofRat 0) := by
  cases field with
  | none => simp [parseFloat64, F64.orElse]
  | some q =>
    simp only [parseFloat64, Option.map_some', Option.getD_some]
    exact F64.orElse_ofUnits _ _

theorem sumBills64_foldl (rows : List (Option ℚ)) (a : F64) :
    rows.foldl
        (fun totalBills amount =>
          F64.add totalBills (F64.orElse (parseFloat64 amount) (F64.ofRat 0))) a
      = (rows.map (fun amount => (amount.map F64.ofRat).getD (F64.ofRat 0))).foldl F64.add a := by
  induction rows generalizing a with
  | nil => rfl
  | cons x xs ih =>
    rw [List.foldl_cons, ih, List.map_cons, List.foldl_cons, orElse_parseFloat64]

/-- At 10^15 years the month count is 1.2e16, above 2^53: the loop of
`calculateInvestment` never exits. -/
theorem never_returns_of_years (form : InvestmentForm)
    (hy : form.years = some 1000000000000000) (fuel : ℕ) :
    calculateInvestment64 fuel form = none := by
  apply calculateInvestment64_never_returns
  rw [hy]
  exact le_totalMonths64_huge

/-! ## The claims -/

/-- C1, as stated, fails: in the scenario (1000 initial, 100 a month, 12
percent, one year, monthly cadence, end of month) the contributions are 2200
but the final balance is not within half a cent of 2304.17. -/
theorem C1_scenario_not_2304_17 :
    ¬ ((calculateInvestment scenarioForm).totalContributions = 2200 ∧
        |(calculateInvestment scenarioForm).finalBalance - 230417 / 100| < 5 / 1000) := by
  rintro ⟨-, h⟩
  rw [calculateInvestment_scenario.2, abs_lt] at h
  norm_num at h

/-- C1, amended: in the scenario the monthly rate is 1/100, the loop runs 12
times, the contributions are 2200 and the final balance, in exact rational
arithmetic, rounds to 2395.08 at two decimals. -/
theorem C1_scenario_2395_08 :
    monthlyRateOf scenarioForm.annualRate = 1 / 100 ∧
      totalMonthsOf scenarioForm.years = 12 ∧
      (calculateInvestment scenarioForm).totalContributions = 2200 ∧
      |(calculateInvestment scenarioForm).finalBalance - 239508 / 100| < 5 / 1000 := by
  refine ⟨monthlyRateOf_twelve, totalMonthsOf_one, calculateInvestment_scenario.1, ?_⟩
  rw [calculateInvestment_scenario.2, abs_lt]
  constructor <;> norm_num

/-- C2, as stated, fails on the program: the rows 0.1, 0.2, 0.3 and their
reordering 0.3, 0.2, 0.1 give the totals 0.6000000000000001 and 0.6, and with
an income of 0.6 the leftover after bills is negative in the first order only. -/
theorem C2_reordering_changes_total :
    ([some (3 / 10), some (2 / 10), some (1 / 10)] : List (Option ℚ)).Perm
        [some (1 / 10), some (2 / 10), some (3 / 10)] ∧
      (calculateBudget64
          ⟨some (6 / 10), none, [some (1 / 10), some (2 / 10), some (3 / 10)]⟩).totalBills
        = F64.ofRat (6000000000000001 / 10000000000000000) ∧
      (calculateBudget64
          ⟨some (6 / 10), none, [some (3 / 10), some (2 / 10), some (1 / 10)]⟩).totalBills
        = F64.ofRat (6 / 10) ∧
      F64.ofRat (6000000000000001 / 10000000000000000) ≠ F64.ofRat (6 / 10) ∧
      F64.lt (calculateBudget64 ⟨some (6 / 10), none,
          [some (1 / 10), some (2 / 10), some (3 / 10)]⟩).leftoverAfterBills (F64.ofRat 0)
        = true ∧
      F64.lt (calculateBudget64 ⟨some (6 / 10), none,
          [some (3 / 10), some (2 / 10), some (1 / 10)]⟩).leftoverAfterBills (F64.ofRat 0)
        = false := by
  decide!

/-- C2, amended. On doubles, `calculateBudget` computes totalBills as the sum
of the row amounts taken in document order, every unparsable amount counted as
0, leftoverAfterBills = income - totalBills and leftoverAfterSavings =
leftoverAfterBills - targetSavings with no clamping, and leftoverAfterBills is
negative exactly when totalBills > income. In exact rational arithmetic the
total is moreover the same for every reordering of the rows, and the same
equations hold. -/
theorem C2_budget_totals (form : BudgetForm) (rows : List (Option ℚ))
    (hperm : rows.Perm form.billRows) :
    ((calculateBudget64 form).totalBills
        = (form.billRows.map
            (fun amount => (amount.map F64.ofRat).getD (F64.ofRat 0))).foldl
            F64.add (F64.ofRat 0) ∧
      (calculateBudget64 form).leftoverAfterBills
        = F64.sub ((form.income.map F64.ofRat).getD (F64.ofRat 0))
            (calculateBudget64 form).totalBills ∧
      (calculateBudget64 form).leftoverAfterSavings
        = F64.sub (calculateBudget64 form).leftoverAfterBills
            ((form.targetSavings.map F64.ofRat).getD (F64.ofRat 0)) ∧
      F64.lt (calculateBudget64 form).leftoverAfterBills (F64.ofRat 0)
        = F64.lt ((form.income.map F64.ofRat).getD (F64.ofRat 0))
            (calculateBudget64 form).totalBills) ∧
    ((calculateBudget form).totalBills
        = (form.billRows.map (fun amount => amount.getD 0)).sum ∧
      (calculateBudget { form with billRows := rows }).totalBills
        = (calculateBudget form).totalBills ∧
      (calculateBudget form).leftoverAfterBills
        = form.income.getD 0 - (calculateBudget form).totalBills ∧
      (calculateBudget form).leftoverAfterSavings
        = (calculateBudget form).leftoverAfterBills - form.targetSavings.getD 0 ∧
      ((calculateBudget form).leftoverAfterBills < 0
        ↔ form.income.getD 0 < (calculateBudget form).totalBills)) := by
  refine ⟨⟨?_, ?_, ?_, ?_⟩, ⟨?_, ?_, ?_, ?_, ?_⟩⟩
  · simp only [calculateBudget64, sumBills64, sumBills64_foldl]
  · simp only [calculateBudget64, orElse_parseFloat64]
  · simp only [calculateBudget64, orElse_parseFloat64]
  · simp only [calculateBudget64, orElse_parseFloat64, F64.sub_lt_zero]
  · simp [calculateBudget, sumBills_eq_sum]
  · simp only [calculateBudget, sumBills_eq_sum]
    exact (hperm.map _).sum_eq
  · simp [calculateBudget, orDefault_zero_eq_getD]
  · simp [calculateBudget, orDefault_zero_eq_getD]
  · simp [calculateBudget, orDefault_zero_eq_getD]

/-- C2 (amended) at a concrete form: rows 20, unparsable, 5 against the
reordering unparsable, 5, 20, with income 10. The exact total is 25 in both
orders, and on doubles the leftover after bills is negative as 10 < 25. -/
theorem C2_budget_totals_witness :
    (calculateBudget ⟨some 10, some 3, [some 20, none, some 5]⟩).totalBills = 25 ∧
      (calculateBudget ⟨some 10, some 3, [none, some 5, some 20]⟩).totalBills
        = (calculateBudget ⟨some 10, some 3, [some 20, none, some 5]⟩).totalBills ∧
      (calculateBudget ⟨some 10, some 3, [some 20, none, some 5]⟩).leftoverAfterBills < 0 ∧
      F64.lt (calculateBudget64 ⟨some 10, some 3,
          [some 20, none, some 5]⟩).leftoverAfterBills (F64.ofRat 0) = true := by
  have hperm : ([none, some 5, some 20] : List (Option ℚ)).Perm [some 20, none, some 5] := by
    decide
  have h := C2_budget_totals ⟨some 10, some 3, [some 20, none, some 5]⟩ _ hperm
  refine ⟨?_, h.2.2.1, ?_, ?_⟩
  · rw [h.2.1]
    norm_num
  · rw [h.2.2.2.2.2, h.2.1]
    norm_num
  · rw [h.1.2.2.2]
    decide!

/-- C3: with `leftover = income - bills`, `updateBudgetBar` blanks the bar
(three widths 0 and an empty label) when `income <= 0`, and when `income > 0`
with non-negative bills, savings and leftover the three percentages add up to
exactly 100. -/
theorem C3_budget_bar (income bills savings leftover : ℚ)
    (hl : leftover = income - bills) :
    (income ≤ 0 → updateBudgetBar income bills savings leftover
        = { widthBills := 0, widthSavings := 0, widthLeftover := 0, label := "" }) ∧
      (0 < income → 0 ≤ bills → 0 ≤ savings → 0 ≤ leftover →
        (updateBudgetBar income bills savings leftover).widthBills
          + (updateBudgetBar income bills savings leftover).widthSavings
          + (updateBudgetBar income bills savings leftover).widthLeftover = 100 ∧
        billsPct bills savings leftover + savingsPct bills savings leftover
          + leftoverPct bills savings leftover = 100) := by
  constructor
  · intro h
    simp [updateBudgetBar, h]
  · intro hi hb hs hlo
    have hsum : bills + savings + leftover ≠ 0 := by
      have : 0 < bills + savings + leftover := by rw [hl]; linarith
      exact ne_of_gt this
    have ht : totalForChart bills savings leftover = bills + savings + leftover := by
      simp [totalForChart, numOr, max_eq_left hb, max_eq_left hs, max_eq_left hlo, hsum]
    have hp : billsPct bills savings leftover + savingsPct bills savings leftover
        + leftoverPct bills savings leftover = 100 := by
      simp only [billsPct, savingsPct, leftoverPct, ht, max_eq_left hb, max_eq_left hs,
        max_eq_left hlo]
      field_simp
      ring
    refine ⟨?_, hp⟩
    simp only [updateBudgetBar, not_le.mpr hi, if_false]
    exact hp

/-- C3 at concrete inputs: income 0 blanks the bar; income 30 with bills 20,
savings 5 and leftover 10 gives widths that add up to 100. -/
theorem C3_budget_bar_witness :
    updateBudgetBar 0 20 5 (-20)
        = { widthBills := 0, widthSavings := 0, widthLeftover := 0, label := "" } ∧
      (updateBudgetBar 30 20 5 10).widthBills + (updateBudgetBar 30 20 5 10).widthSavings
        + (updateBudgetBar 30 20 5 10).widthLeftover = 100 :=
  ⟨(C3_budget_bar 0 20 5 (-20) (by norm_num)).1 (le_refl 0),
   ((C3_budget_bar 30 20 5 10 (by norm_num)).2 (by norm_num) (by norm_num) (by norm_num)
      (by norm_num)).1⟩

/-- C4, as stated, fails on the program. With a contribution of -100 a month
(`withdrawalForm`) the growth is -68.2503013196972. With a non-negative
contribution it still fails: at initial = monthly = 1e308 (`overflowForm`)
contributions and balance overflow to Infinity and the growth is `NaN`, which
is not at least 0; and at 10^15 years the loop counter stalls at 2^53, so no
result is returned at all. -/
theorem C4_growth_fails_on_doubles :
    ((calculateInvestment64 13 withdrawalForm).map (fun r => r.growth)
        = some (F64.ofRat (-682503013196972 / 10000000000000)) ∧
      F64.le (F64.ofRat 0) (F64.ofRat (-682503013196972 / 10000000000000)) = false ∧
      F64.le (F64.ofRat 0)
          (F64.orElse (parseFloat64 overflowForm.monthlyContribution) (F64.ofRat 0)) = true ∧
      (calculateInvestment64 13 overflowForm).map (fun r => r.growth) = some F64.nan ∧
      F64.le (F64.ofRat 0) F64.nan = false) ∧
    ¬ ∃ fuel, (calculateInvestment64 fuel longRunForm).isSome = true :=
  ⟨by decide!, fun ⟨fuel, h⟩ => by
    rw [never_returns_of_years longRunForm rfl fuel] at h
    exact absurd h (by decide)⟩

/-- C4, amended: evaluated in exact rational arithmetic, for a form inside the
data model (initial at least 0, years at least 0, cadence month or year,
timing begin or end) whose month count on the program is below 2^53, with a
non-negative annual rate and a non-negative monthly contribution, the growth
returned by `calculateInvestment` is the final balance minus the
contributions and is at least 0. -/
theorem C4_growth_nonneg (form : InvestmentForm)
    (hi : 0 ≤ orDefault form.initialAmount 0)
    (_hy : 0 ≤ orDefault form.years 0)
    (_hN : F64.lt (totalMonths64 form.years) (F64.ofRat 9007199254740992) = true)
    (_hf : form.contributionFrequency = "month" ∨ form.contributionFrequency = "year")
    (_ht : timingOf form.timingChecked = "begin" ∨ timingOf form.timingChecked = "end")
    (_hr : 0 ≤ orDefault form.annualRate 0)
    (hc : 0 ≤ orDefault form.monthlyContribution 0) :
    (calculateInvestment form).growth
        = (calculateInvestment form).finalBalance
          - (calculateInvestment form).totalContributions ∧
      0 ≤ (calculateInvestment form).growth := by
  have hinv := simulate_invariant form.contributionFrequency (timingOf form.timingChecked)
    (orDefault form.monthlyContribution 0) (monthlyRateOf form.annualRate)
    (orDefault form.initialAmount 0) (totalMonthsOf form.years) hc
    (monthlyRateOf_nonneg _) hi
  refine ⟨rfl, ?_⟩
  simp only [calculateInvestment]
  linarith [hinv.2]

/-- C4 (amended) at the worked scenario: growth is at least 0. -/
theorem C4_growth_nonneg_witness : 0 ≤ (calculateInvestment scenarioForm).growth :=
  (C4_growth_nonneg scenarioForm (by simp [scenarioForm, orDefault])
    (by simp [scenarioForm, orDefault]) (by decide!) (Or.inl rfl) (Or.inr rfl)
    (by simp [scenarioForm, orDefault]) (by simp [scenarioForm, orDefault])).2

/-- C5, as stated, fails on the program: at 1000 initial, 100 a month, 12
percent, one year, yearly cadence, the final balances for timing begin and
end are 2338.82503013197 and 2326.8250301319695; they differ by
12.000000000000455 on doubles and by no more exactly, while `12*c*r` is 12. -/
theorem C5_difference_not_exact :
    (calculateInvestment64 13 ⟨some 1000, some 100, some 12, some 1, none, "year",
        some "begin"⟩).map (fun r => r.finalBalance)
      = some (F64.ofRat (233882503013197 / 100000000000)) ∧
    (calculateInvestment64 13 ⟨some 1000, some 100, some 12, some 1, none, "year",
        some "end"⟩).map (fun r => r.finalBalance)
      = some (F64.ofRat (23268250301319695 / 10000000000000)) ∧
    F64.sub (F64.ofRat (233882503013197 / 100000000000))
        (F64.ofRat (23268250301319695 / 10000000000000))
      = F64.ofRat (12000000000000455 / 1000000000000000) ∧
    F64.mul (F64.mul (F64.ofRat 12) (F64.ofRat 100)) (monthlyRate64 (some 12)) = F64.ofRat 12 ∧
    F64.ofRat (12000000000000455 / 1000000000000000) ≠ F64.ofRat 12 ∧
    F64.toRat (F64.ofRat (233882503013197 / 100000000000))
        - F64.toRat (F64.ofRat (23268250301319695 / 10000000000000))
      ≠ 12 * 100 * F64.toRat (monthlyRate64 (some 12)) := by
  decide!

/-- C5, amended: evaluated in exact rational arithmetic, with yearly cadence
over one year and timing begin the yearly amount `12*c` enters only at month
12 (after 11 months the contributions are still the initial amount) and
before that month's interest; the final balance exceeds the one of timing end
by exactly `12*c*r`. -/
theorem C5_yearly_begin (initialAmount monthlyContribution annualRate n : Option ℚ) :
    (simulate "year" "begin" (orDefault monthlyContribution 0) (monthlyRateOf annualRate)
        (orDefault initialAmount 0) 11)
      = { balance := orDefault initialAmount 0 * (1 + monthlyRateOf annualRate) ^ 11
          totalContributions := orDefault initialAmount 0 } ∧
    (calculateInvestment ⟨initialAmount, monthlyContribution, annualRate, some 1, n, "year",
        some "begin"⟩).totalContributions
      = orDefault initialAmount 0 + 12 * orDefault monthlyContribution 0 ∧
    (calculateInvestment ⟨initialAmount, monthlyContribution, annualRate, some 1, n, "year",
        some "begin"⟩).finalBalance
      = (orDefault initialAmount 0 * (1 + monthlyRateOf annualRate) ^ 11
          + 12 * orDefault monthlyContribution 0) * (1 + monthlyRateOf annualRate) ∧
    (calculateInvestment ⟨initialAmount, monthlyContribution, annualRate, some 1, n, "year",
        some "end"⟩).finalBalance
      = orDefault initialAmount 0 * (1 + monthlyRateOf annualRate) ^ 12
          + 12 * orDefault monthlyContribution 0 ∧
    (calculateInvestment ⟨initialAmount, monthlyContribution, annualRate, some 1, n, "year",
        some "begin"⟩).finalBalance
      - (calculateInvestment ⟨initialAmount, monthlyContribution, annualRate, some 1, n, "year",
        some "end"⟩).finalBalance
      = 12 * orDefault monthlyContribution 0 * monthlyRateOf annualRate := by
  have hr := monthlyRateOf_nonneg annualRate
  refine ⟨simulate_year_begin_11 _ _ _ hr, ?_, ?_, ?_, ?_⟩ <;>
    simp only [calculateInvestment, totalMonthsOf_one, timingOf_end, timingOf_begin,
      simulate_year_begin_12 _ _ _ hr, simulate_year_end_12 _ _ _ hr]
  ring

/-- C6: when the years field is 0, negative or unparsable, the loop runs zero
times and `calculateInvestment` returns the initial amount as final balance
and as contributions, with growth 0. -/
theorem C6_zero_years (form : InvestmentForm) (hy : orDefault form.years 0 ≤ 0) :
    totalMonthsOf form.years = 0 ∧
      (calculateInvestment form).finalBalance = orDefault form.initialAmount 0 ∧
      (calculateInvestment form).totalContributions = orDefault form.initialAmount 0 ∧
      (calculateInvestment form).growth = 0 := by
  have hN := totalMonthsOf_of_nonpos form.years hy
  simp [calculateInvestment, hN, simulate_zero]

/-- C6 at a concrete form: minus three years, 7 percent, 50 a month. -/
theorem C6_zero_years_witness :
    (calculateInvestment ⟨some 1000, some 50, some 7, some (-3), none, "month",
        some "begin"⟩).finalBalance = 1000 ∧
      (calculateInvestment ⟨some 1000, some 50, some 7, some (-3), none, "month",
        some "begin"⟩).growth = 0 := by
  have h := C6_zero_years ⟨some 1000, some 50, some 7, some (-3), none, "month", some "begin"⟩
    (by simp [orDefault])
  refine ⟨?_, h.2.2.2⟩
  rw [h.2.1]
  simp [orDefault]

/-- C7, as stated, fails on the program: with a contribution of 0, a rate of 0
and 10^15 years (`idleLongRunForm`) the month count is 1.2e16, the loop
counter stalls at 2^53 and the loop never exits, so no final balance is
returned. -/
theorem C7_long_run_never_returns :
    F64.orElse (parseFloat64 idleLongRunForm.monthlyContribution) (F64.ofRat 0) = F64.ofRat 0 ∧
      F64.orElse (parseFloat64 idleLongRunForm.annualRate) (F64.ofRat 0) = F64.ofRat 0 ∧
      totalMonths64 idleLongRunForm.years = F64.ofRat 12000000000000000 ∧
      ¬ ∃ fuel, (calculateInvestment64 fuel idleLongRunForm).isSome = true :=
  ⟨by decide!, by decide!, by decide!, fun ⟨fuel, h⟩ => by
    rw [never_returns_of_years idleLongRunForm rfl fuel] at h
    exact absurd h (by decide)⟩

/-- C7, amended: evaluated in exact rational arithmetic, with a monthly
contribution of 0 and an annual rate of 0, for every years value whose month
count on the program is below 2^53 and for every cadence and timing,
`calculateInvestment` returns the initial amount as final balance and as
contributions, with growth 0. -/
theorem C7_idle (form : InvestmentForm)
    (hc : orDefault form.monthlyContribution 0 = 0)
    (hr : orDefault form.annualRate 0 = 0)
    (_hN : F64.lt (totalMonths64 form.years) (F64.ofRat 9007199254740992) = true) :
    (calculateInvestment form).finalBalance = orDefault form.initialAmount 0 ∧
      (calculateInvestment form).totalContributions = orDefault form.initialAmount 0 ∧
      (calculateInvestment form).growth = 0 := by
  simp [calculateInvestment, hc, monthlyRateOf_of_zero _ hr, simulate_idle]

/-- C7 (amended) at a concrete form: 1000 initial, 40 years, yearly cadence. -/
theorem C7_idle_witness :
    (calculateInvestment ⟨some 1000, some 0, none, some 40, none, "year",
        some "begin"⟩).finalBalance = 1000 := by
  have h := C7_idle ⟨some 1000, some 0, none, some 40, none, "year", some "begin"⟩
    (by simp [orDefault]) (by simp [orDefault]) (by decide!)
  rw [h.1]
  simp [orDefault]

theorem contribPct_add_growthPct (c g : ℚ) :
    if c ≤ 0 ∧ g ≤ 0 then contribPct c g = 0 ∧ growthPct c g = 0
    else contribPct c g + growthPct c g = 100 := by
  by_cases h : c ≤ 0 ∧ g ≤ 0
  · simp [h, contribPct, growthPct, max_eq_right h.1, max_eq_right h.2]
  · simp only [h, if_false]
    have h1 : (0 : ℚ) ≤ max c 0 := le_max_right _ _
    have h2 : (0 : ℚ) ≤ max g 0 := le_max_right _ _
    have hpos : 0 < max c 0 + max g 0 := by
      rcases not_and_or.mp h with hc | hg
      · have : 0 < max c 0 := lt_max_of_lt_left (not_le.mp hc)
        linarith
      · have : 0 < max g 0 := lt_max_of_lt_left (not_le.mp hg)
        linarith
    have hne : max c 0 + max g 0 ≠ 0 := ne_of_gt hpos
    have ht : investmentBarTotal c g = max c 0 + max g 0 := by
      simp [investmentBarTotal, numOr, hne]
    simp only [contribPct, growthPct, ht]
    field_simp
    ring

/-- C8, as stated, fails on the program: at 1e308 initial and 1200 percent
the balance overflows, `updateInvestmentBar` receives an infinite growth and
its growth percentage is `NaN`, outside [0, 100]; and for contributions 1000
and growth 349.35354719082557 (what 3 percent over 10 years gives) the two
percentages add up to 99.99999999999999, not 100. -/
theorem C8_width_not_a_number :
    (calculateInvestment64 13 ⟨some (10 ^ 308), some 0, some 1200, some 1, none, "month",
        some "end"⟩).map (fun r => r.bar.widthGrowth) = some F64.nan ∧
    F64.le (F64.ofRat 0) F64.nan = false ∧
    F64.add
        (updateInvestmentBar64 (F64.ofRat 1000)
          (F64.ofRat (34935354719082557 / 100000000000000))).widthContributions
        (updateInvestmentBar64 (F64.ofRat 1000)
          (F64.ofRat (34935354719082557 / 100000000000000))).widthGrowth
      = F64.ofRat (9999999999999999 / 100000000000000) ∧
    F64.ofRat (9999999999999999 / 100000000000000) ≠ F64.ofRat 100 := by
  decide!

/-- C8, amended. On doubles, for every input, `NaN` and the infinities
included, the denominators of both allocation bars are strictly positive, so
no division by zero occurs. Evaluated in exact rational arithmetic, every one
of the five percentages lies between 0 and 100 (so do the widths written by
`updateBudgetBar` and `updateInvestmentBar`), and the two investment
percentages add up to 100 unless contributions and growth are both at most 0,
in which case both percentages are 0. -/
theorem C8_bars_safe (bills64 savings64 leftover64 contributions64 growth64 : F64)
    (income bills savings leftover contributions growth : ℚ) :
    (F64.lt (F64.ofRat 0) (totalForChart64 bills64 savings64 leftover64) = true ∧
      F64.lt (F64.ofRat 0) (investmentBarTotal64 contributions64 growth64) = true) ∧
    0 < totalForChart bills savings leftover ∧
    0 < investmentBarTotal contributions growth ∧
    (0 ≤ billsPct bills savings leftover ∧ billsPct bills savings leftover ≤ 100) ∧
    (0 ≤ savingsPct bills savings leftover ∧ savingsPct bills savings leftover ≤ 100) ∧
    (0 ≤ leftoverPct bills savings leftover ∧ leftoverPct bills savings leftover ≤ 100) ∧
    (0 ≤ contribPct contributions growth ∧ contribPct contributions growth ≤ 100) ∧
    (0 ≤ growthPct contributions growth ∧ growthPct contributions growth ≤ 100) ∧
    (updateBudgetBar income bills savings leftover
      = if income ≤ 0 then
          { widthBills := 0, widthSavings := 0, widthLeftover := 0, label := "" }
        else
          { updateBudgetBar income bills savings leftover with
            widthBills := billsPct bills savings leftover
            widthSavings := savingsPct bills savings leftover
            widthLeftover := leftoverPct bills savings leftover }) ∧
    updateInvestmentBar contributions growth
      = { widthContributions := contribPct contributions growth
          widthGrowth := growthPct contributions growth } ∧
    (if contributions ≤ 0 ∧ growth ≤ 0 then
        contribPct contributions growth = 0 ∧ growthPct contributions growth = 0
      else contribPct contributions growth + growthPct contributions growth = 100) := by
  refine ⟨⟨totalForChart64_pos _ _ _, investmentBarTotal64_pos _ _⟩,
    totalForChart_pos _ _ _, investmentBarTotal_pos _ _, billsPct_bounds _ _ _,
    savingsPct_bounds _ _ _, leftoverPct_bounds _ _ _, contribPct_bounds _ _,
    growthPct_bounds _ _, ?_, rfl, contribPct_add_growthPct _ _⟩
  by_cases h : income ≤ 0
  · simp [updateBudgetBar, h]
  · simp [updateBudgetBar, h]

/-- C9, as stated, fails on the program: in the worked scenario (monthly rate
0.01, 12 months, timing end) the loop returns the double 2395.075331451667,
which is neither the value of the closed form at the program's monthly rate
nor its value at the rate 1/100; and at 10^15 years the loop never exits. -/
theorem C9_loop_differs_from_closed_form :
    ((calculateInvestment64 13 scenarioForm).map (fun r => r.finalBalance)
        = some (F64.ofRat (2395075331451667 / 1000000000000)) ∧
      F64.toRat (F64.ofRat (2395075331451667 / 1000000000000))
        ≠ futureValueEnd 1000 100 (F64.toRat (monthlyRate64 (some 12))) 12 ∧
      F64.toRat (F64.ofRat (2395075331451667 / 1000000000000))
        ≠ futureValueEnd 1000 100 (1 / 100) 12) ∧
    ¬ ∃ fuel, (calculateInvestment64 fuel longRunForm).isSome = true :=
  ⟨by decide!, fun ⟨fuel, h⟩ => by
    rw [never_returns_of_years longRunForm rfl fuel] at h
    exact absurd h (by decide)⟩

/-- C9, amended: evaluated in exact rational arithmetic, with monthly cadence,
a positive monthly rate `r` and `N` months, `N` below 2^53 on the program, the
final balance of the loop equals the closed-form future value, for timing end
`initial*(1+r)^N + c*((1+r)^N - 1)/r` (`futureValueEnd`) and for timing begin
`initial*(1+r)^N + c*(1+r)*((1+r)^N - 1)/r` (`futureValueBegin`). -/
theorem C9_closed_form (form : InvestmentForm)
    (hf : form.contributionFrequency = "month")
    (hr : 0 < monthlyRateOf form.annualRate)
    (_hN : F64.lt (totalMonths64 form.years) (F64.ofRat 9007199254740992) = true) :
    (timingOf form.timingChecked = "end" →
      (calculateInvestment form).finalBalance
        = futureValueEnd (orDefault form.initialAmount 0)
            (orDefault form.monthlyContribution 0) (monthlyRateOf form.annualRate)
            (totalMonthsOf form.years)) ∧
    (timingOf form.timingChecked = "begin" →
      (calculateInvestment form).finalBalance
        = futureValueBegin (orDefault form.initialAmount 0)
            (orDefault form.monthlyContribution 0) (monthlyRateOf form.annualRate)
            (totalMonthsOf form.years)) := by
  constructor
  · intro ht
    simp only [calculateInvestment, hf, ht, futureValueEnd]
    exact simulate_month_end_balance _ _ _ hr _
  · intro ht
    simp only [calculateInvestment, hf, ht, futureValueBegin]
    exact simulate_month_begin_balance _ _ _ hr _

/-- C9 (amended) at the worked scenario (timing end) and at its timing-begin
variant: the closed forms `1000*(101/100)^12 + 100*((101/100)^12 - 1)/(1/100)`
and `1000*(101/100)^12 + 100*(101/100)*((101/100)^12 - 1)/(1/100)`. -/
theorem C9_closed_form_witness :
    (calculateInvestment scenarioForm).finalBalance
        = 1000 * (1 + 1 / 100) ^ 12 + 100 * ((1 + 1 / 100) ^ 12 - 1) / (1 / 100) ∧
      (calculateInvestment { scenarioForm with timingChecked := some "begin" }).finalBalance
        = 1000 * (1 + 1 / 100) ^ 12
          + 100 * (1 + 1 / 100) * ((1 + 1 / 100) ^ 12 - 1) / (1 / 100) := by
  have hm : orDefault (some 100) 0 = 100 := by simp [orDefault]
  have hi : orDefault (some 1000) 0 = 1000 := by simp [orDefault]
  have hpos : (0 : ℚ) < monthlyRateOf (some 12) := by
    rw [monthlyRateOf_twelve]
    norm_num
  have hE := (C9_closed_form scenarioForm rfl hpos (by decide!)).1 rfl
  have hB := (C9_closed_form { scenarioForm with timingChecked := some "begin" } rfl hpos
    (by decide!)).2 rfl
  simp only [scenarioForm, monthlyRateOf_twelve, totalMonthsOf_one, hm, hi, futureValueEnd,
    futureValueBegin] at hE hB
  exact ⟨hE, hB⟩

/-- C10, as stated, fails on the program: at 1000 initial, 0.1 a month over a
quarter of a year (3 months) the loop returns contributions of
1000.3000000000001, while `initial + c*N` is 1000.3 on doubles and is not the
returned value in exact arithmetic either; and at 10^15 years the loop never
exits. -/
theorem C10_repeated_addition_differs :
    ((calculateInvestment64 4 ⟨some 1000, some (1 / 10), some 0, some (1 / 4), none, "month",
          some "end"⟩).map (fun r => r.totalContributions)
        = some (F64.ofRat (10003000000000001 / 10000000000000)) ∧
      F64.add (F64.ofRat 1000) (F64.mul (F64.ofRat (1 / 10)) (F64.ofRat 3))
        = F64.ofRat (10003 / 10) ∧
      F64.ofRat (10003000000000001 / 10000000000000) ≠ F64.ofRat (10003 / 10) ∧
      F64.toRat (F64.ofRat (10003000000000001 / 10000000000000))
        ≠ 1000 + F64.toRat (F64.ofRat (1 / 10)) * 3 ∧
      F64.toRat (F64.ofRat (10003000000000001 / 10000000000000)) ≠ 1000 + 1 / 10 * 3) ∧
    ¬ ∃ fuel, (calculateInvestment64 fuel longRunForm).isSome = true :=
  ⟨by decide!, fun ⟨fuel, h⟩ => by
    rw [never_returns_of_years longRunForm rfl fuel] at h
    exact absurd h (by decide)⟩

/-- C10, amended: evaluated in exact rational arithmetic, for timing begin or
end and a month count `N` below 2^53 on the program, the contributions
returned by `calculateInvestment` are `initial + c*N` for monthly cadence and
`initial + 12*c*floor(N/12)` for any other cadence; hence two forms that
differ only in rate and timing return the same contributions. -/
theorem C10_contributions (form other : InvestmentForm)
    (ht : timingOf form.timingChecked = "begin" ∨ timingOf form.timingChecked = "end")
    (hto : timingOf other.timingChecked = "begin" ∨ timingOf other.timingChecked = "end")
    (_hN : F64.lt (totalMonths64 form.years) (F64.ofRat 9007199254740992) = true)
    (hi : other.initialAmount = form.initialAmount)
    (hm : other.monthlyContribution = form.monthlyContribution)
    (hy : other.years = form.years)
    (hf : other.contributionFrequency = form.contributionFrequency) :
    (calculateInvestment form).totalContributions
        = (if form.contributionFrequency = "month" then
            orDefault form.initialAmount 0
              + orDefault form.monthlyContribution 0 * (totalMonthsOf form.years : ℚ)
          else
            orDefault form.initialAmount 0
              + 12 * orDefault form.monthlyContribution 0
                * ((totalMonthsOf form.years / 12 : ℕ) : ℚ)) ∧
      (calculateInvestment other).totalContributions
        = (calculateInvestment form).totalContributions := by
  have h1 := simulate_totalContributions form.contributionFrequency
    (timingOf form.timingChecked) (orDefault form.monthlyContribution 0)
    (monthlyRateOf form.annualRate) (orDefault form.initialAmount 0)
    (totalMonthsOf form.years) ht
  have h2 := simulate_totalContributions other.contributionFrequency
    (timingOf other.timingChecked) (orDefault other.monthlyContribution 0)
    (monthlyRateOf other.annualRate) (orDefault other.initialAmount 0)
    (totalMonthsOf other.years) hto
  refine ⟨h1, ?_⟩
  simp only [calculateInvestment]
  rw [h1, h2, hi, hm, hy, hf]

/-- C10 (amended) at concrete forms: yearly cadence over 2.5 years (30 months)
with 100 a month gives 1000 + 12*100*2 = 3400, at 12 percent with timing end
and at 3 percent with timing begin alike. -/
theorem C10_contributions_witness :
    (calculateInvestment ⟨some 1000, some 100, some 12, some (5 / 2), none, "year",
        some "end"⟩).totalContributions = 3400 ∧
      (calculateInvestment ⟨some 1000, some 100, some 3, some (5 / 2), none, "year",
        some "begin"⟩).totalContributions = 3400 := by
  have hN : totalMonthsOf (some (5 / 2)) = 30 := by
    simp [totalMonthsOf, orDefault, mathRound]
    norm_num
    rfl
  have h := C10_contributions
    ⟨some 1000, some 100, some 12, some (5 / 2), none, "year", some "end"⟩
    ⟨some 1000, some 100, some 3, some (5 / 2), none, "year", some "begin"⟩
    (Or.inr rfl) (Or.inl rfl) (by decide!) rfl rfl rfl rfl
  have hv : (calculateInvestment ⟨some 1000, some 100, some 12, some (5 / 2), none, "year",
      some "end"⟩).totalContributions = 3400 := by
    rw [h.1]
    simp [hN, orDefault]
    norm_num
  exact ⟨hv, h.2.trans hv⟩

end BudgetInvest
